import Mathlib

/-
Verification development for the youtube_bot repository.

The definitions below are shallow embeddings of the Python sources:
  - src/bot/management/commands/runbot.py  (the Django management command bot)
  - src/youtube_dl_bot.py                  (the quality-ladder variant)
  - src/bot/models.py                      (the Download / User rows)
Strings are modelled as lists of characters so that the Python string
operations (split with a maxsplit bound, substring membership, upper) can
be given exact executable counterparts.
-/

/- ===== Python string primitives ===== -/

/-- Does the haystack begin with the needle?  Models Python str.startswith. -/
def startsWith : List Char → List Char → Bool
  | _, [] => true
  | [], _ :: _ => false
  | a :: as, b :: bs => a = b && startsWith as bs

/-- Does the needle occur inside the haystack?  Models the Python test
needle in haystack. -/
def containsSub : List Char → List Char → Bool
  | [], n => startsWith [] n
  | h :: t, n => startsWith (h :: t) n || containsSub t n

/-- Split off everything before the first occurrence of the separator.
Returns the chunk before the separator and, when the separator occurs,
the remainder after it. -/
def split1 (sep : Char) : List Char → List Char × Option (List Char)
  | [] => ([], none)
  | c :: cs =>
    if c = sep then ([], some cs)
    else
      let r := split1 sep cs
      (c :: r.1, r.2)

/-- Models Python s.split(sep, 2): at most two splits, the tail is kept
whole. -/
def pySplit2 (sep : Char) (s : List Char) : List (List Char) :=
  match split1 sep s with
  | (a, none) => [a]
  | (a, some rest) =>
    match split1 sep rest with
    | (b, none) => [a, b]
    | (b, some rest2) => [a, b, rest2]

/-- ASCII uppercase of one character; models Python str.upper on the
ASCII range, which is all the code applies it to. -/
def asciiUpperChar (c : Char) : Char :=
  if 'a' ≤ c ∧ c ≤ 'z' then Char.ofNat (c.toNat - 32) else c

/-- ASCII uppercase of a character list. -/
def asciiUpper (s : List Char) : List Char := s.map asciiUpperChar

/- ===== Callback-data encoding (runbot.py lines 143-150 and 235-238) ===== -/

/-- Encoding used by the inline keyboard buttons: the f-string
dl_video_{url} resp. dl_audio_{url} in handle_youtube_url. -/
def encodeCallback (kind url : List Char) : List Char :=
  "dl_".data ++ kind ++ "_".data ++ url

/-- Decoding in handle_callback: guarded by startswith on dl_video_ or
dl_audio_, then parts = data.split("_", 2); the kind is parts[1].upper()
and the url is parts[2]. -/
def decodeCallback (data : List Char) : Option (List Char × List Char) :=
  if startsWith data "dl_video_".data || startsWith data "dl_audio_".data then
    let parts := pySplit2 '_' data
    some (asciiUpper (parts.getD 1 []), parts.getD 2 [])
  else none

/- ===== helper lemmas for the split ===== -/

/- ===== Quality ladder variant (src/youtube_dl_bot.py, download_video) ===== -/

/-- The three video quality tiers offered by the keyboard: high (720p),
medium (480p), low (360p). -/
inductive Quality
  | high
  | medium
  | low
deriving DecidableEq

/-- Ordinal of a tier: larger means higher quality, tried earlier in the
ladder. -/
def qualityOrd : Quality → Nat
  | Quality.low => 0
  | Quality.medium => 1
  | Quality.high => 2

/-- Target height of each tier, as in the format selectors of
download_video (lines 393-401). -/
def tierHeight : Quality → Nat
  | Quality.high => 720
  | Quality.medium => 480
  | Quality.low => 360

/-- The static video ladder, top tier first. -/
def videoLadder : List Quality := [Quality.high, Quality.medium, Quality.low]

/-- The tier one ordinal below a tier, when one exists. -/
def nextTier : Quality → Option Quality
  | Quality.high => some Quality.medium
  | Quality.medium => some Quality.low
  | Quality.low => none

/-- The 50 MB transport limit checked at lines 438 and 555. -/
def TELEGRAM_LIMIT : Nat := 50 * 1024 * 1024

/-- Terminal outcome of one download_video call in the ladder variant. -/
inductive YdbOutcome
  | delivered (q : Quality) (size : Nat)
  | tooLargeOfferAudio
  | sendError
deriving DecidableEq

/-- Observable result of one download_video call of the ladder variant:
the tiers attempted in order, the files left in the downloads directory
after control returns to handle_callback, and the terminal outcome. -/
structure YdbRun where
  attempts : List Quality
  files : List (Quality × Nat)
  outcome : YdbOutcome
deriving DecidableEq

/-- Shallow embedding of download_video in src/youtube_dl_bot.py
(lines 381-494), driven by a deterministic artifact size per tier and a
flag saying whether sending the file to the chat succeeds.  Control flow of
the source: download the artifact for the requested tier; if its size
exceeds the 50 MB limit and the tier is not low, remove the file and
re-invoke download_video with the low tier (line 447); if the tier is
already low, remove the file and offer audio instead; otherwise send the
file - when sending raises, handle_callback (line 376) catches the error
and the file is never removed, and on a successful send the file is
removed. -/
def ydbDownloadVideo (size : Quality → Nat) (sendOk : Bool) (q : Quality) : YdbRun :=
  if size q > TELEGRAM_LIMIT then
    if h : q = Quality.low then
      { attempts := [q], files := [], outcome := YdbOutcome.tooLargeOfferAudio }
    else
      let r := ydbDownloadVideo size sendOk Quality.low
      { attempts := q :: r.attempts, files := r.files, outcome := r.outcome }
  else if sendOk then
    { attempts := [q], files := [], outcome := YdbOutcome.delivered q (size q) }
  else
    { attempts := [q], files := [(q, size q)], outcome := YdbOutcome.sendError }
termination_by qualityOrd q
decreasing_by
  cases q with
  | low => exact absurd rfl h
  | medium => decide
  | high => decide

/-- The tier sizes of the spec scenario in section 8: 720p gives 80 MiB,
480p gives 40 MiB, 360p gives 20 MiB. -/
def exSizes : Quality → Nat
  | Quality.high => 80 * 1024 * 1024
  | Quality.medium => 40 * 1024 * 1024
  | Quality.low => 20 * 1024 * 1024

/- ===== runbot.py pipeline (download_video, lines 275-487) ===== -/

/-- The fields of the yt-dlp info dict read by download_video: the title
(get with default Unknown Title) and the duration (get with default 0). -/
structure InfoDict where
  title : Option String
  duration : Option Nat
deriving DecidableEq

/-- External effects of one pipeline run: the metadata extraction call
(may raise), the fetch call together with the directory listing of the
temporary workspace afterwards (may raise), and the send call (may
raise).  Error values carry the exception text str(e). -/
structure RunbotEnv where
  extractResult : Except String InfoDict
  fetchResult : Except String (List (String × Nat))
  sendResult : Except String Unit

/-- The columns of the persisted Download row (src/bot/models.py, lines
41-64) that the pipeline writes.  The user foreign key, url, title, type
and started_at columns are set once at creation and never drive any
claim, so they are not carried here. -/
structure DownloadRec where
  success : Bool
  fileSize : Nat
  completedAt : Option Nat
  errorMessage : Option String
deriving DecidableEq

/-- Derived outcome classification of a row, as the admin dashboard
derives it (src/bot/admin.py, download_status): success means SUCCESS, a
stored error message means FAILURE, neither means PENDING. -/
inductive Outcome
  | pending
  | success
  | failure
deriving DecidableEq

/-- Classify a Download row. -/
def outcomeOf (r : DownloadRec) : Outcome :=
  if r.success then Outcome.success
  else if r.errorMessage.isSome then Outcome.failure
  else Outcome.pending

/-- Observable steps of a pipeline run, in program order. -/
inductive Event
  | recordCreated
  | durationRejected
  | fetchAttempt
deriving DecidableEq

/-- Terminal result of a pipeline run, as reported to the chat. -/
inductive RunResult
  | failedMetadata (e : String)
  | rejectedDuration
  | failedFetch (e : String)
  | delivered (size : Nat)
deriving DecidableEq

/-- Full observable output of one download_video run. -/
structure RunbotOut where
  record : Option DownloadRec
  events : List Event
  result : RunResult
  workspaceAfter : List (String × Nat)
deriving DecidableEq

/-- The 2000 MB transport limit of runbot.py line 30. -/
def MAX_FILE_SIZE : Nat := 2000 * 1024 * 1024

/-- The duration bound hard-coded at runbot.py line 363.  The comment on
that line and the chat message speak of a 10 minute (600 second) maximum,
but the literal compared against is 6000. -/
def DURATION_LIMIT_CODE : Nat := 6000

/-- Stands for the oversize exception text raised at runbot.py line 430;
the source interpolates the size into the message, only its presence
matters here. -/
def oversizeMsg : String := "File size exceeds the Telegram limit (2000MB)"

/-- The fetch phase inside the temporary directory (runbot.py lines
411-483): run the download, list the workspace, take the first file,
check its size, send it; every raise is caught by the except branch which
stores str(e) in the error_message column.  Returns the updated row, the
reported result, and the files present in the workspace when the try
block is left. -/
def fetchPhase (now : Nat) (rec0 : DownloadRec) (env : RunbotEnv) :
    DownloadRec × RunResult × List (String × Nat) :=
  match env.fetchResult with
  | Except.error e =>
    ({ rec0 with errorMessage := some e }, RunResult.failedFetch e, [])
  | Except.ok files =>
    match files with
    | [] =>
      ({ rec0 with errorMessage := some "No files were downloaded" },
       RunResult.failedFetch "No files were downloaded", [])
    | f :: rest =>
      if f.2 > MAX_FILE_SIZE then
        ({ rec0 with errorMessage := some oversizeMsg },
         RunResult.failedFetch oversizeMsg, f :: rest)
      else
        match env.sendResult with
        | Except.error e =>
          ({ rec0 with errorMessage := some e }, RunResult.failedFetch e, f :: rest)
        | Except.ok _ =>
          ({ rec0 with success := true, fileSize := f.2, completedAt := some now },
           RunResult.delivered f.2, f :: rest)

/-- Models leaving the scope of tempfile.TemporaryDirectory (runbot.py
line 410): whatever happened inside, the workspace and its files are
deleted. -/
def withTempDir (out : DownloadRec × RunResult × List (String × Nat)) :
    DownloadRec × RunResult × List (String × Nat) :=
  (out.1, out.2.1, [])

/-- Shallow embedding of download_video in runbot.py (lines 275-487):
extract the metadata (on a raise, report and return with no row
created); create the Download row; if the duration read from the info
dict (default 0) exceeds the ceiling, store Video too long and return;
otherwise run the fetch phase inside a temporary directory.  The ceiling
is a parameter so the hard-coded 6000 of line 363 and the 600 of the
documented policy can both be instantiated. -/
def downloadVideoRun (ceiling now : Nat) (env : RunbotEnv) : RunbotOut :=
  match env.extractResult with
  | Except.error e =>
    { record := none, events := [], result := RunResult.failedMetadata e,
      workspaceAfter := [] }
  | Except.ok info =>
    let rec0 : DownloadRec :=
      { success := false, fileSize := 0, completedAt := none, errorMessage := none }
    if info.duration.getD 0 > ceiling then
      { record := some { rec0 with errorMessage := some "Video too long" },
        events := [Event.recordCreated, Event.durationRejected],
        result := RunResult.rejectedDuration, workspaceAfter := [] }
    else
      let out := withTempDir (fetchPhase now rec0 env)
      { record := some out.1,
        events := [Event.recordCreated, Event.fetchAttempt],
        result := out.2.1, workspaceAfter := out.2.2 }

/- ===== concrete environments used by the claims ===== -/

/-- Metadata with a fixed title and the given duration field. -/
def infoWith (d : Option Nat) : InfoDict := { title := some "T", duration := d }

/-- A run whose video lasts 900 seconds and whose fetch and send succeed
with a 1000 byte artifact. -/
def env900 : RunbotEnv :=
  { extractResult := Except.ok (infoWith (some 900)),
    fetchResult := Except.ok [("f.mp4", 1000)],
    sendResult := Except.ok () }

/-- A run whose video lasts 9000 seconds, beyond even the hard-coded
bound. -/
def envRej : RunbotEnv :=
  { extractResult := Except.ok (infoWith (some 9000)),
    fetchResult := Except.ok [("f.mp4", 1000)],
    sendResult := Except.ok () }

/-- A run whose metadata extraction raises. -/
def envMetaFail : RunbotEnv :=
  { extractResult := Except.error "boom",
    fetchResult := Except.ok [],
    sendResult := Except.ok () }

/-- A run whose info dict has no duration field at all. -/
def envNoDuration : RunbotEnv :=
  { extractResult := Except.ok { title := some "T", duration := none },
    fetchResult := Except.ok [("f.mp4", 1000)],
    sendResult := Except.ok () }

/- ===== Attempt ledger (src/bot/models.py) ===== -/

/-- The owning user row; the only column the core writes is the
last_active timestamp, bumped by Download.save. -/
structure UserRow where
  lastActive : Nat
deriving DecidableEq

/-- Stored state: the owning user row and the Download row. -/
structure LedgerState where
  user : UserRow
  row : DownloadRec
deriving DecidableEq

/-- Download.save (models.py lines 60-64): set user.last_active to now,
save the user, then write the row unconditionally.  There is no check of
the current stored state. -/
def downloadSave (now : Nat) (_st : LedgerState) (r : DownloadRec) : LedgerState :=
  { user := { lastActive := now }, row := r }

/-- The field writes of the success path of runbot.py lines 466-468,
before the save. -/
def finalizeSuccess (sz t : Nat) (r : DownloadRec) : DownloadRec :=
  { r with success := true, fileSize := sz, completedAt := some t }

/-- The field write of the failure paths of runbot.py lines 369 and 482,
before the save. -/
def finalizeFailure (msg : String) (r : DownloadRec) : DownloadRec :=
  { r with errorMessage := some msg }

/-- Is the row in a terminal outcome already? -/
def isTerminal (r : DownloadRec) : Bool :=
  match outcomeOf r with
  | Outcome.pending => false
  | _ => true

/- ===== Site profile options (runbot.py, download_video lines 281-337) ===== -/

/-- The desktop user agent string of runbot.py lines 286-290. -/
def desktopUA : String :=
  "Mozilla/5.0 (Windows NT 10.0; Win64; x64) AppleWebKit/537.36 (KHTML, like Gecko) Chrome/100.0.4896.127 Safari/537.36"

/-- The mobile user agent string used for TikTok URLs (line 322). -/
def mobileUA : String :=
  "Mozilla/5.0 (iPhone; CPU iPhone OS 16_6 like Mac OS X) AppleWebKit/605.1.15 (KHTML, like Gecko) Version/16.6 Mobile/15E148 Safari/604.1"

/-- The cookie header injected for TikTok URLs (line 325). -/
def tiktokCookieHeader : String :=
  "tt_webid_v2=7132164135405970983; tt_webid=7132164135405970983;"

/-- The yt-dlp option dictionary assembled by download_video before any
fetch.  Option keys that a branch never touches are carried as Option or
Bool fields so presence and absence can be distinguished. -/
structure CommonOptions where
  quiet : Bool
  noWarnings : Bool
  cookiefile : String
  userAgent : String
  referer : String
  geoBypass : Bool
  geoBypassCountry : String
  igUsername : Bool
  igPassword : Bool
  headersCookie : Option String
  forceGenericExtractor : Option Bool
  allowUnplayableFormats : Option Bool
  noCheckCertificate : Option Bool
  tiktokExtractorArgs : Bool
deriving DecidableEq

/-- The dictionary literal of lines 281-295, before any site branch runs:
every URL starts from these values, including the YouTube cookie file,
the TikTok referer and the geo bypass flags. -/
def baseCommonOptions : CommonOptions :=
  { quiet := true, noWarnings := true,
    cookiefile := "/app/youtube.com_cookies.txt",
    userAgent := desktopUA,
    referer := "https://www.tiktok.com/",
    geoBypass := true, geoBypassCountry := "US",
    igUsername := false, igPassword := false,
    headersCookie := none, forceGenericExtractor := none,
    allowUnplayableFormats := none, noCheckCertificate := none,
    tiktokExtractorArgs := false }

/-- The TikTok test of line 316. -/
def isTikTokUrl (url : String) : Bool :=
  containsSub url.data "tiktok.com".data
    || containsSub url.data "tiktok.vn".data
    || containsSub url.data "vm.tiktok.com".data

/-- The Instagram test of line 305. -/
def isInstagramUrl (url : String) : Bool :=
  containsSub url.data "instagram.com".data

/-- A YouTube test mirroring the domains required by the routing patterns
of handle_message (line 496): the url must contain one of the YouTube
hosts. -/
def isYouTubeUrl (url : String) : Bool :=
  containsSub url.data "youtube.com".data || containsSub url.data "youtu.be".data

/-- Shallow embedding of the option assembly of download_video lines
281-337: start from the base dictionary, overlay the Instagram stories
branch, the Instagram branch, and the TikTok branch, in source order. -/
def buildCommonOptions (url : String) : CommonOptions :=
  let o := baseCommonOptions
  let o :=
    if containsSub url.data "instagram.com/stories".data then
      { o with cookiefile := "/app/instagram.com_cookies.txt",
               igUsername := true, igPassword := true }
    else o
  let o :=
    if isInstagramUrl url then
      { o with referer := "https://www.instagram.com/", userAgent := desktopUA }
    else o
  if isTikTokUrl url then
    { o with userAgent := mobileUA, referer := "https://www.tiktok.com/",
             headersCookie := some tiktokCookieHeader,
             forceGenericExtractor := some false,
             allowUnplayableFormats := some true,
             noCheckCertificate := some true,
             tiktokExtractorArgs := true }
  else o

/-- A URL matching none of the known site patterns. -/
def exGenericUrl : String := "https://example.com/v/abc"

/-- The row value produced by the duration rejection branch. -/
def crecRej : DownloadRec :=
  { success := false, fileSize := 0, completedAt := none,
    errorMessage := some "Video too long" }

/-- The row value produced by the successful env900 run with now = 0. -/
def recSuccess900 : DownloadRec :=
  { success := true, fileSize := 1000, completedAt := some 0, errorMessage := none }

/-- A Download row already finalized SUCCESS. -/
def terminalRow : DownloadRec :=
  { success := true, fileSize := 7, completedAt := some 1, errorMessage := none }

theorem startsWith_append_self (n rest : List Char) :
    startsWith (n ++ rest) n = true := by
  induction n with
  | nil => cases rest <;> rfl
  | cons a t ih => simp [startsWith, ih]

theorem split1_append_sep (sep : Char) (xs ys : List Char)
    (h : ∀ c ∈ xs, c ≠ sep) :
    split1 sep (xs ++ sep :: ys) = (xs, some ys) := by
  induction xs with
  | nil => simp [split1]
  | cons a t ih =>
    have ha : a ≠ sep := h a (List.mem_cons_self a t)
    have ih2 := ih (fun c hc => h c (List.mem_cons_of_mem a hc))
    simp [split1, ha, ih2]

/-- C1: evaluation of the code at the failing input of the claim.  A
video of 900 seconds exceeds the documented 600 second ceiling, yet the
pipeline performs a fetch attempt and delivers; only under the documented
ceiling of 600 would it be rejected.  The guard at runbot.py line 363
compares against 6000, contradicting the 10 minute maximum stated by the
comment on that line and by the chat message. -/
theorem c1_duration_ceiling_code_eval :
    (downloadVideoRun DURATION_LIMIT_CODE 0 env900).result = RunResult.delivered 1000
  ∧ Event.fetchAttempt ∈ (downloadVideoRun DURATION_LIMIT_CODE 0 env900).events
  ∧ (downloadVideoRun 600 0 env900).result = RunResult.rejectedDuration := by
  decide

/-- C3 counterexample: the duration rejection finalizes the row as
FAILURE (error message Video too long) but leaves completed_at null, so
the claimed biconditional completedAt set iff outcome not PENDING fails
on this row. -/
theorem c3_completedAt_counterexample :
    (downloadVideoRun DURATION_LIMIT_CODE 0 envRej).record = some crecRej
  ∧ outcomeOf crecRej = Outcome.failure
  ∧ crecRej.completedAt = none
  ∧ ¬(crecRej.completedAt.isSome = true ↔ outcomeOf crecRej ≠ Outcome.pending) := by
  decide

/-- C3 amended: for every run, any row the pipeline leaves behind has
completed_at set iff the outcome is SUCCESS (not merely non-PENDING), a
positive file size only on SUCCESS, and is never left PENDING. -/
theorem c3_record_consistency_amended (c now : Nat) (env : RunbotEnv)
    (r : DownloadRec) (h : (downloadVideoRun c now env).record = some r) :
    (r.completedAt.isSome = true ↔ outcomeOf r = Outcome.success)
  ∧ (0 < r.fileSize → outcomeOf r = Outcome.success)
  ∧ outcomeOf r ≠ Outcome.pending := by
  cases henv : env.extractResult with
  | error e => simp [downloadVideoRun, henv] at h
  | ok info =>
    by_cases hd : info.duration.getD 0 > c
    · simp [downloadVideoRun, henv, hd] at h
      subst h
      simp [outcomeOf]
    · cases hf : env.fetchResult with
      | error e =>
        simp [downloadVideoRun, henv, hd, withTempDir, fetchPhase, hf] at h
        subst h
        simp [outcomeOf]
      | ok files =>
        cases files with
        | nil =>
          simp [downloadVideoRun, henv, hd, withTempDir, fetchPhase, hf] at h
          subst h
          simp [outcomeOf]
        | cons f rest =>
          by_cases hsz : f.2 > MAX_FILE_SIZE
          · simp [downloadVideoRun, henv, hd, withTempDir, fetchPhase, hf, hsz] at h
            subst h
            simp [outcomeOf]
          · cases hs : env.sendResult with
            | error e =>
              simp [downloadVideoRun, henv, hd, withTempDir, fetchPhase, hf, hsz, hs] at h
              subst h
              simp [outcomeOf]
            | ok u =>
              simp [downloadVideoRun, henv, hd, withTempDir, fetchPhase, hf, hsz, hs] at h
              subst h
              simp [outcomeOf]

/-- C3 witness: the amended consistency facts at the concrete successful
run env900. -/
theorem c3_record_consistency_witness :
    (recSuccess900.completedAt.isSome = true ↔ outcomeOf recSuccess900 = Outcome.success)
  ∧ (0 < recSuccess900.fileSize → outcomeOf recSuccess900 = Outcome.success)
  ∧ outcomeOf recSuccess900 ≠ Outcome.pending :=
  c3_record_consistency_amended DURATION_LIMIT_CODE 0 env900 recSuccess900 (by decide)

/-- C5: a metadata failure reports a terminal failure with no row
created; when metadata succeeds the row creation is the first observable
step, before the duration check, so a duration rejection always leaves a
FAILURE row reading Video too long. -/
theorem c5_audit_ordering (c now : Nat) (env : RunbotEnv) :
    (∀ e, env.extractResult = Except.error e →
        (downloadVideoRun c now env).record = none
      ∧ (downloadVideoRun c now env).events = [])
  ∧ (∀ i, env.extractResult = Except.ok i →
        (downloadVideoRun c now env).events.head? = some Event.recordCreated
      ∧ ((downloadVideoRun c now env).record).isSome = true)
  ∧ ((downloadVideoRun c now env).result = RunResult.rejectedDuration →
        (downloadVideoRun c now env).events
          = [Event.recordCreated, Event.durationRejected]
      ∧ ∃ r, (downloadVideoRun c now env).record = some r
          ∧ outcomeOf r = Outcome.failure
          ∧ r.errorMessage = some "Video too long") := by
  cases henv : env.extractResult with
  | error e =>
    refine ⟨fun e2 h2 => ?_, fun i hi => ?_, fun hres => ?_⟩
    · simp [downloadVideoRun, henv]
    · simp at hi
    · simp [downloadVideoRun, henv] at hres
  | ok info =>
    by_cases hd : info.duration.getD 0 > c
    · refine ⟨fun e2 h2 => ?_, fun i hi => ?_, fun hres => ?_⟩
      · simp at h2
      · simp [downloadVideoRun, henv, hd]
      · refine ⟨by simp [downloadVideoRun, henv, hd], ?_⟩
        refine ⟨crecRej, ?_, by decide, by decide⟩
        simp [downloadVideoRun, henv, hd, crecRej]
    · refine ⟨fun e2 h2 => ?_, fun i hi => ?_, fun hres => ?_⟩
      · simp at h2
      · simp [downloadVideoRun, henv, hd]
      · exfalso
        cases hf : env.fetchResult with
        | error e2 =>
          simp [downloadVideoRun, henv, hd, withTempDir, fetchPhase, hf] at hres
        | ok files =>
          cases files with
          | nil =>
            simp [downloadVideoRun, henv, hd, withTempDir, fetchPhase, hf] at hres
          | cons f rest =>
            by_cases hsz : f.2 > MAX_FILE_SIZE
            · simp [downloadVideoRun, henv, hd, withTempDir, fetchPhase, hf, hsz] at hres
            · cases hs : env.sendResult with
              | error e3 =>
                simp [downloadVideoRun, henv, hd, withTempDir, fetchPhase, hf, hsz, hs] at hres
              | ok u =>
                simp [downloadVideoRun, henv, hd, withTempDir, fetchPhase, hf, hsz, hs] at hres

/-- C5 witness: the metadata-failure facts at envMetaFail and the
rejection facts at envRej. -/
theorem c5_audit_ordering_witness :
    ((downloadVideoRun DURATION_LIMIT_CODE 0 envMetaFail).record = none
      ∧ (downloadVideoRun DURATION_LIMIT_CODE 0 envMetaFail).events = [])
  ∧ ((downloadVideoRun DURATION_LIMIT_CODE 0 envRej).events
        = [Event.recordCreated, Event.durationRejected]
      ∧ ∃ r, (downloadVideoRun DURATION_LIMIT_CODE 0 envRej).record = some r
          ∧ outcomeOf r = Outcome.failure
          ∧ r.errorMessage = some "Video too long") :=
  ⟨(c5_audit_ordering DURATION_LIMIT_CODE 0 envMetaFail).1 "boom" rfl,
   (c5_audit_ordering DURATION_LIMIT_CODE 0 envRej).2.2 (by decide)⟩

/-- C9: when the info dict has no duration field the code reads it as 0,
so for every ceiling the run is never duration-rejected and a fetch
attempt occurs. -/
theorem c9_missing_duration (c now : Nat) (env : RunbotEnv) (i : InfoDict)
    (h1 : env.extractResult = Except.ok i) (h2 : i.duration = none) :
    Event.durationRejected ∉ (downloadVideoRun c now env).events
  ∧ Event.fetchAttempt ∈ (downloadVideoRun c now env).events := by
  have hd : ¬ (i.duration.getD 0 > c) := by
    rw [h2]
    simp
  simp [downloadVideoRun, h1, hd]

/-- C9 witness: the missing-duration facts at the concrete run
envNoDuration with the hard-coded ceiling. -/
theorem c9_missing_duration_witness :
    Event.durationRejected ∉ (downloadVideoRun DURATION_LIMIT_CODE 0 envNoDuration).events
  ∧ Event.fetchAttempt ∈ (downloadVideoRun DURATION_LIMIT_CODE 0 envNoDuration).events :=
  c9_missing_duration DURATION_LIMIT_CODE 0 envNoDuration
    { title := some "T", duration := none } rfl rfl

/-- C10: the callback-data encoding round-trips: for every URL (underscores
included) and each kind in video/audio, decoding the encoded data recovers
the uppercased kind and the exact original URL. -/
theorem c10_callback_roundtrip (url : List Char) :
    decodeCallback (encodeCallback "video".data url)
      = some ("VIDEO".data, url)
  ∧ decodeCallback (encodeCallback "audio".data url)
      = some ("AUDIO".data, url) := by
  constructor
  · have hguard : startsWith (encodeCallback "video".data url) "dl_video_".data = true := by
      have : encodeCallback "video".data url = "dl_video_".data ++ url := by
        simp [encodeCallback]
      rw [this]
      exact startsWith_append_self _ _
    have hsplit : pySplit2 '_' (encodeCallback "video".data url)
        = ["dl".data, "video".data, url] := by
      have h1 : encodeCallback "video".data url
          = "dl".data ++ '_' :: ("video".data ++ '_' :: url) := by
        simp [encodeCallback]
      rw [h1]
      simp only [pySplit2,
        split1_append_sep '_' "dl".data ("video".data ++ '_' :: url) (by decide),
        split1_append_sep '_' "video".data url (by decide)]
    simp [decodeCallback, hguard, hsplit]
    decide
  · have hguard : startsWith (encodeCallback "audio".data url) "dl_audio_".data = true := by
      have : encodeCallback "audio".data url = "dl_audio_".data ++ url := by
        simp [encodeCallback]
      rw [this]
      exact startsWith_append_self _ _
    have hsplit : pySplit2 '_' (encodeCallback "audio".data url)
        = ["dl".data, "audio".data, url] := by
      have h1 : encodeCallback "audio".data url
          = "dl".data ++ '_' :: ("audio".data ++ '_' :: url) := by
        simp [encodeCallback]
      rw [h1]
      simp only [pySplit2,
        split1_append_sep '_' "dl".data ("audio".data ++ '_' :: url) (by decide),
        split1_append_sep '_' "audio".data url (by decide)]
    simp [decodeCallback, hguard, hsplit]
    decide

/- ===== C2, C4, C6: ladder walk, delivery size, workspace cleanup ===== -/

theorem startsWith_append_mono (h n m : List Char) :
    startsWith h (n ++ m) = true → startsWith h n = true := by
  induction n generalizing h with
  | nil => intro _; cases h <;> rfl
  | cons b bs ih =>
    intro hh
    cases h with
    | nil => simp [startsWith] at hh
    | cons a as =>
      simp [startsWith] at hh ⊢
      exact ⟨hh.1, ih as hh.2⟩

theorem containsSub_append_mono (hay n m : List Char) :
    containsSub hay (n ++ m) = true → containsSub hay n = true := by
  induction hay with
  | nil =>
    intro hh
    simp [containsSub] at hh ⊢
    exact startsWith_append_mono _ _ _ hh
  | cons c t ih =>
    intro hh
    simp [containsSub] at hh ⊢
    rcases hh with h1 | h2
    · exact Or.inl (startsWith_append_mono _ _ _ h1)
    · exact Or.inr (ih h2)

/-- C2 counterexample: with the tier sizes of the spec scenario, an
Oversize at the top tier is followed directly by the low tier, although
the immediately next ordinal is the medium tier - the ladder walk skips
480p. -/
theorem c2_ladder_skip_counterexample :
    (ydbDownloadVideo exSizes true Quality.high).attempts
      = [Quality.high, Quality.low]
  ∧ nextTier Quality.high = some Quality.medium
  ∧ Quality.low ≠ Quality.medium := by
  refine ⟨?_, rfl, by decide⟩
  simp [ydbDownloadVideo, exSizes, TELEGRAM_LIMIT]

/-- C2 amended: the tiers attempted by one call are the starting tier
alone, or - when the starting tier is not already low - the starting tier
followed directly by the low tier; intermediate tiers are skipped. -/
theorem c2_ladder_amended (size : Quality → Nat) (sendOk : Bool) (q : Quality) :
    (ydbDownloadVideo size sendOk q).attempts = [q]
  ∨ (q ≠ Quality.low
      ∧ (ydbDownloadVideo size sendOk q).attempts = [q, Quality.low]) := by
  cases q with
  | low =>
    left
    by_cases h1 : size Quality.low > TELEGRAM_LIMIT <;> by_cases h2 : sendOk <;>
      simp [ydbDownloadVideo, h1, h2]
  | medium =>
    by_cases h1 : size Quality.medium > TELEGRAM_LIMIT
    · right
      refine ⟨by decide, ?_⟩
      by_cases h2 : size Quality.low > TELEGRAM_LIMIT <;> by_cases h3 : sendOk <;>
        simp [ydbDownloadVideo, h1, h2, h3]
    · left
      by_cases h3 : sendOk <;> simp [ydbDownloadVideo, h1, h3]
  | high =>
    by_cases h1 : size Quality.high > TELEGRAM_LIMIT
    · right
      refine ⟨by decide, ?_⟩
      by_cases h2 : size Quality.low > TELEGRAM_LIMIT <;> by_cases h3 : sendOk <;>
        simp [ydbDownloadVideo, h1, h2, h3]
    · left
      by_cases h3 : sendOk <;> simp [ydbDownloadVideo, h1, h3]

/-- C4 counterexample: with the spec scenario sizes the run started at
the top tier delivers the low tier artifact, although the medium tier,
one ordinal higher, already satisfies the size constraint - the delivered
tier is not the highest satisfying tier. -/
theorem c4_highest_tier_counterexample :
    (ydbDownloadVideo exSizes true Quality.high).outcome
      = YdbOutcome.delivered Quality.low (20 * 1024 * 1024)
  ∧ exSizes Quality.medium ≤ TELEGRAM_LIMIT
  ∧ qualityOrd Quality.low < qualityOrd Quality.medium := by
  refine ⟨?_, by decide, by decide⟩
  simp [ydbDownloadVideo, exSizes, TELEGRAM_LIMIT]

/-- C4 amended: every delivered artifact satisfies the transport size
limit and its tier is either the starting tier or, after an Oversize at
the start, the low tier; and in the runbot pipeline every successful row
records a file size within the 2000 MB limit. -/
theorem c4_delivery_size_amended :
    (∀ (size : Quality → Nat) (sendOk : Bool) (q q2 : Quality) (s : Nat),
        (ydbDownloadVideo size sendOk q).outcome = YdbOutcome.delivered q2 s →
        s ≤ TELEGRAM_LIMIT ∧ s = size q2
          ∧ (q2 = q ∨ (q2 = Quality.low ∧ TELEGRAM_LIMIT < size q)))
  ∧ (∀ (c now : Nat) (env : RunbotEnv) (r : DownloadRec),
        (downloadVideoRun c now env).record = some r → r.success = true →
        r.fileSize ≤ MAX_FILE_SIZE) := by
  constructor
  · intro size sendOk q q2 s h
    cases q with
    | low =>
      by_cases h1 : size Quality.low > TELEGRAM_LIMIT
      · simp [ydbDownloadVideo, h1] at h
      · by_cases h3 : sendOk
        · simp [ydbDownloadVideo, h1, h3] at h
          obtain ⟨hq2, hs⟩ := h
          subst hq2; subst hs
          exact ⟨Nat.le_of_not_lt h1, rfl, Or.inl rfl⟩
        · simp [ydbDownloadVideo, h1, h3] at h
    | medium =>
      by_cases h1 : size Quality.medium > TELEGRAM_LIMIT
      · by_cases h2 : size Quality.low > TELEGRAM_LIMIT
        · simp [ydbDownloadVideo, h1, h2] at h
        · by_cases h3 : sendOk
          · simp [ydbDownloadVideo, h1, h2, h3] at h
            obtain ⟨hq2, hs⟩ := h
            subst hq2; subst hs
            exact ⟨Nat.le_of_not_lt h2, rfl, Or.inr ⟨rfl, h1⟩⟩
          · simp [ydbDownloadVideo, h1, h2, h3] at h
      · by_cases h3 : sendOk
        · simp [ydbDownloadVideo, h1, h3] at h
          obtain ⟨hq2, hs⟩ := h
          subst hq2; subst hs
          exact ⟨Nat.le_of_not_lt h1, rfl, Or.inl rfl⟩
        · simp [ydbDownloadVideo, h1, h3] at h
    | high =>
      by_cases h1 : size Quality.high > TELEGRAM_LIMIT
      · by_cases h2 : size Quality.low > TELEGRAM_LIMIT
        · simp [ydbDownloadVideo, h1, h2] at h
        · by_cases h3 : sendOk
          · simp [ydbDownloadVideo, h1, h2, h3] at h
            obtain ⟨hq2, hs⟩ := h
            subst hq2; subst hs
            exact ⟨Nat.le_of_not_lt h2, rfl, Or.inr ⟨rfl, h1⟩⟩
          · simp [ydbDownloadVideo, h1, h2, h3] at h
      · by_cases h3 : sendOk
        · simp [ydbDownloadVideo, h1, h3] at h
          obtain ⟨hq2, hs⟩ := h
          subst hq2; subst hs
          exact ⟨Nat.le_of_not_lt h1, rfl, Or.inl rfl⟩
        · simp [ydbDownloadVideo, h1, h3] at h
  · intro c now env r h hs
    cases henv : env.extractResult with
    | error e => simp [downloadVideoRun, henv] at h
    | ok info =>
      by_cases hd : info.duration.getD 0 > c
      · simp [downloadVideoRun, henv, hd] at h
        subst h
        simp at hs
      · cases hf : env.fetchResult with
        | error e =>
          simp [downloadVideoRun, henv, hd, withTempDir, fetchPhase, hf] at h
          subst h
          simp at hs
        | ok files =>
          cases files with
          | nil =>
            simp [downloadVideoRun, henv, hd, withTempDir, fetchPhase, hf] at h
            subst h
            simp at hs
          | cons f rest =>
            by_cases hsz : f.2 > MAX_FILE_SIZE
            · simp [downloadVideoRun, henv, hd, withTempDir, fetchPhase, hf, hsz] at h
              subst h
              simp at hs
            · cases hsend : env.sendResult with
              | error e =>
                simp [downloadVideoRun, henv, hd, withTempDir, fetchPhase, hf, hsz, hsend] at h
                subst h
                simp at hs
              | ok u =>
                simp [downloadVideoRun, henv, hd, withTempDir, fetchPhase, hf, hsz, hsend] at h
                subst h
                exact Nat.le_of_not_lt hsz

/-- C4 witness: the amended facts at a run started at the medium tier
with the scenario sizes, and at the successful runbot run env900. -/
theorem c4_delivery_size_witness :
    ((40 * 1024 * 1024 : Nat) ≤ TELEGRAM_LIMIT
      ∧ (40 * 1024 * 1024 : Nat) = exSizes Quality.medium
      ∧ (Quality.medium = Quality.medium
          ∨ (Quality.medium = Quality.low ∧ TELEGRAM_LIMIT < exSizes Quality.medium)))
  ∧ recSuccess900.fileSize ≤ MAX_FILE_SIZE := by
  constructor
  · exact c4_delivery_size_amended.1 exSizes true Quality.medium Quality.medium
      (40 * 1024 * 1024) (by simp [ydbDownloadVideo, exSizes, TELEGRAM_LIMIT])
  · exact c4_delivery_size_amended.2 DURATION_LIMIT_CODE 0 env900 recSuccess900
      (by decide) (by decide)

/-- C6 counterexample: in the ladder variant, an attempt whose artifact
fits the limit but whose send raises leaves the downloaded file behind in
the downloads directory - the workspace is not cleaned on that exit
path. -/
theorem c6_cleanup_counterexample :
    (ydbDownloadVideo exSizes false Quality.low).files
      = [(Quality.low, 20 * 1024 * 1024)]
  ∧ (ydbDownloadVideo exSizes false Quality.low).outcome = YdbOutcome.sendError
  ∧ (ydbDownloadVideo exSizes false Quality.low).files ≠ [] := by
  refine ⟨?_, ?_, ?_⟩ <;> simp [ydbDownloadVideo, exSizes, TELEGRAM_LIMIT]

/-- C6 amended: the runbot variant always leaves an empty workspace - the
TemporaryDirectory scope deletes it on every exit path; the ladder
variant removes its artifact only when the send succeeds (and on the
oversize paths). -/
theorem c6_cleanup_amended :
    (∀ (c now : Nat) (env : RunbotEnv),
        (downloadVideoRun c now env).workspaceAfter = [])
  ∧ (∀ (size : Quality → Nat) (q : Quality),
        (ydbDownloadVideo size true q).files = []) := by
  constructor
  · intro c now env
    cases henv : env.extractResult with
    | error e => simp [downloadVideoRun, henv]
    | ok info =>
      by_cases hd : info.duration.getD 0 > c
      · simp [downloadVideoRun, henv, hd]
      · simp [downloadVideoRun, henv, hd, withTempDir]
  · intro size q
    cases q with
    | low =>
      by_cases h1 : size Quality.low > TELEGRAM_LIMIT <;>
        simp [ydbDownloadVideo, h1]
    | medium =>
      by_cases h1 : size Quality.medium > TELEGRAM_LIMIT <;>
        by_cases h2 : size Quality.low > TELEGRAM_LIMIT <;>
          simp [ydbDownloadVideo, h1, h2]
    | high =>
      by_cases h1 : size Quality.high > TELEGRAM_LIMIT <;>
        by_cases h2 : size Quality.low > TELEGRAM_LIMIT <;>
          simp [ydbDownloadVideo, h1, h2]

/- ===== C7: site profile options for generic URLs ===== -/

/-- C7 counterexample: a URL matching no known site pattern still
receives the base option set, which carries the YouTube cookie file, the
TikTok referer and the geo bypass flags - not an empty special-option
set. -/
theorem c7_generic_options_counterexample :
    isYouTubeUrl exGenericUrl = false
  ∧ isTikTokUrl exGenericUrl = false
  ∧ isInstagramUrl exGenericUrl = false
  ∧ buildCommonOptions exGenericUrl = baseCommonOptions
  ∧ baseCommonOptions.cookiefile = "/app/youtube.com_cookies.txt"
  ∧ baseCommonOptions.geoBypass = true
  ∧ baseCommonOptions.referer = "https://www.tiktok.com/" := by
  refine ⟨by decide, by decide, by decide, by decide, rfl, rfl, rfl⟩

/-- C7 amended: the option assembly is a total function; every URL
matching neither the Instagram nor the TikTok tests receives exactly the
base option set - which already includes the YouTube cookie file, a
desktop user agent, the TikTok referer and geo bypass - rather than an
empty special-option set. -/
theorem c7_generic_amended (url : String)
    (hig : isInstagramUrl url = false) (htk : isTikTokUrl url = false) :
    buildCommonOptions url = baseCommonOptions := by
  have hinsta : containsSub url.data "instagram.com".data = false := hig
  have hstories : containsSub url.data "instagram.com/stories".data = false := by
    cases hx : containsSub url.data "instagram.com/stories".data with
    | false => rfl
    | true =>
      exfalso
      have hsplit : "instagram.com".data ++ "/stories".data
          = "instagram.com/stories".data := by decide
      have h2 := containsSub_append_mono url.data "instagram.com".data "/stories".data
        (by rw [hsplit]; exact hx)
      rw [hinsta] at h2
      exact Bool.noConfusion h2
  have htk2 : isTikTokUrl url = false := htk
  simp [buildCommonOptions, isInstagramUrl, isTikTokUrl] at htk2 ⊢
  simp [hstories, hinsta, htk2]

/-- C7 witness: the amended statement at the concrete generic URL. -/
theorem c7_generic_amended_witness :
    buildCommonOptions exGenericUrl = baseCommonOptions :=
  c7_generic_amended exGenericUrl (by decide) (by decide)

/- ===== C8: re-finalizing a terminal row ===== -/

/-- C8 counterexample: finalizing a row that is already terminal goes
through silently - the save overwrites the row and bumps the user's
last-active stamp; nothing fails fast. -/
theorem c8_refinalize_counterexample :
    isTerminal terminalRow = true
  ∧ (downloadSave 5 { user := { lastActive := 0 }, row := terminalRow }
        (finalizeFailure "second finalize" terminalRow)).row ≠ terminalRow
  ∧ (downloadSave 5 { user := { lastActive := 0 }, row := terminalRow }
        (finalizeFailure "second finalize" terminalRow)).row.errorMessage
      = some "second finalize"
  ∧ (downloadSave 5 { user := { lastActive := 0 }, row := terminalRow }
        (finalizeFailure "second finalize" terminalRow)).user.lastActive = 5 := by
  decide

/-- C8 amended: Download.save has no terminal-state guard: finalizing an
already-terminal row again is accepted silently, the new field values are
stored last-write-wins, the user's last-active stamp is bumped, and the
row stays terminal. -/
theorem c8_refinalize_amended (now : Nat) (st : LedgerState) (msg : String)
    (h : isTerminal st.row = true) :
    (downloadSave now st (finalizeFailure msg st.row)).row.errorMessage = some msg
  ∧ (downloadSave now st (finalizeFailure msg st.row)).user.lastActive = now
  ∧ isTerminal (downloadSave now st (finalizeFailure msg st.row)).row = true := by
  refine ⟨rfl, rfl, ?_⟩
  by_cases hs : st.row.success <;>
    simp [downloadSave, finalizeFailure, isTerminal, outcomeOf, hs]

/-- C8 witness: the amended statement at a concrete terminal row. -/
theorem c8_refinalize_amended_witness :
    (downloadSave 5 { user := { lastActive := 0 }, row := terminalRow }
        (finalizeFailure "dup" terminalRow)).row.errorMessage = some "dup"
  ∧ (downloadSave 5 { user := { lastActive := 0 }, row := terminalRow }
        (finalizeFailure "dup" terminalRow)).user.lastActive = 5
  ∧ isTerminal (downloadSave 5 { user := { lastActive := 0 }, row := terminalRow }
        (finalizeFailure "dup" terminalRow)).row = true :=
  c8_refinalize_amended 5 { user := { lastActive := 0 }, row := terminalRow }
    "dup" (by decide)
